import Mathlib

/- Shallow embedding of the WalletDb_v2 wallet ledger.

   Source layout:
   * `api/persistence/db.py`        — `get_connection`: every repository call opens its
     own SQLAlchemy connection and transaction; commit on success, rollback of only
     that call's writes on failure.
   * `api/persistence/repositories/carteira_repository.py` — SQL against the tables
     `carteira`, `saldo_carteira`/`moeda`, `deposito_saque`, `conversao`,
     `transferencia`.
   * `api/services/carteira_service.py` — business logic (deposit, withdrawal,
     conversion, transfer, block, create).
   * `api/services/coinbase_service.py` — external quote lookup; modelled as an
     `Except Unit ℚ` argument (success with the spot rate, or any of the failure
     modes httpx raises / malformed payload).

   Monetary values (`Decimal` in the source) are modelled as `ℚ`: the operations the
   service performs (+, -, *, comparison) are exact on `Decimal` for the magnitudes
   involved.  The SHA-256 digest used for the private key is modelled as an explicit
   function argument `hash : String → String`.  Environment-configured fee rates
   (`_obter_taxa_percentual`) are passed as explicit `ℚ` arguments, with the
   source-code defaults recorded as named constants. -/

namespace WalletDb

/-- A row of the `carteira` table: address, creation stamp, status
("ATIVA"/"BLOQUEADA"), and the SHA-256 digest of the private key. -/
structure CarteiraRow where
  endereco_carteira : String
  data_criacao : Nat
  status : String
  hash_chave_privada : String
deriving DecidableEq, Repr

/-- A row of the `saldo_carteira` table joined with `moeda`: one balance per
(wallet address, currency code). -/
structure SaldoRow where
  endereco_carteira : String
  codigo_moeda : String
  saldo : ℚ
deriving DecidableEq, Repr

/-- A row of the `deposito_saque` table as mapped back by the repository. -/
structure OperacaoRec where
  endereco_carteira : String
  codigo_moeda : String
  tipo_operacao : String
  valor : ℚ
  taxa : ℚ
  valor_liquido : ℚ
  saldo_anterior : ℚ
  saldo_atual : ℚ
deriving DecidableEq, Repr

/-- A row of the `conversao` table as mapped back by the repository. -/
structure ConversaoRec where
  endereco_carteira : String
  moeda_origem : String
  moeda_destino : String
  valor_origem : ℚ
  cotacao : ℚ
  taxa_conversao : ℚ
  valor_destino : ℚ
  saldo_origem_anterior : ℚ
  saldo_origem_atual : ℚ
  saldo_destino_anterior : ℚ
  saldo_destino_atual : ℚ
deriving DecidableEq, Repr

/-- A row of the `transferencia` table as mapped back by the repository. -/
structure TransferenciaRec where
  endereco_origem : String
  endereco_destino : String
  codigo_moeda : String
  valor : ℚ
  taxa : ℚ
  valor_liquido : ℚ
  saldo_origem_anterior : ℚ
  saldo_origem_atual : ℚ
  saldo_destino_anterior : ℚ
  saldo_destino_atual : ℚ
deriving DecidableEq, Repr

/-- The durable state owned by the store: the five tables the engine touches. -/
structure DBState where
  carteiras : List CarteiraRow
  moedas : List String
  saldos : List SaldoRow
  movimentos : List OperacaoRec
  conversoes : List ConversaoRec
  transferencias : List TransferenciaRec
deriving DecidableEq, Repr

/-- The errors the service raises (`ValueError`/`RuntimeError` messages in the
source, one constructor per raise site). -/
inductive Erro where
  | campoObrigatorio (campo : String)
  | carteiraNaoEncontrada
  | carteiraBloqueada
  | carteiraDestinoNaoEncontrada
  | carteiraDestinoBloqueada
  | chavePrivadaInvalida
  | moedaNaoEncontrada (codigo : String)
  | moedaDestinoNaoEncontrada (codigo : String)
  | mesmaMoeda
  | mesmaCarteira
  | saldoInsuficiente
  | erroCotacao
  | erroBanco (msg : String)
deriving DecidableEq, Repr

/-- Result of a service call: the observable database state afterwards together
with the returned value or raised error. -/
structure Resultado (α : Type) where
  db : DBState
  res : Except Erro α

/-- Whether an `Except` result is an error. -/
def isErro {α : Type} : Except Erro α → Bool
  | .error _ => true
  | .ok _ => false

instance {ε α : Type} [DecidableEq ε] [DecidableEq α] : DecidableEq (Except ε α) :=
  fun x y =>
    match x, y with
    | .error a, .error b =>
        if h : a = b then isTrue (by rw [h]) else isFalse (by simp [h])
    | .ok a, .ok b =>
        if h : a = b then isTrue (by rw [h]) else isFalse (by simp [h])
    | .error _, .ok _ => isFalse (by simp)
    | .ok _, .error _ => isFalse (by simp)

/-! ### Repository (`carteira_repository.py`) -/

/-- `CarteiraRepository.buscar_por_endereco`: SELECT of the wallet row by address. -/
def buscar_por_endereco (db : DBState) (endereco : String) : Option CarteiraRow :=
  db.carteiras.find? (fun r => r.endereco_carteira == endereco)

/-- `CarteiraRepository.atualizar_status`: unconditional UPDATE of `status` for the
matching address, then SELECT of the (updated) row; both inside one transaction. -/
def atualizar_status (db : DBState) (endereco status : String) :
    DBState × Option CarteiraRow :=
  let db' : DBState :=
    { db with
      carteiras := db.carteiras.map (fun r =>
        if r.endereco_carteira == endereco then { r with status := status } else r) }
  (db', buscar_por_endereco db' endereco)

/-- `CarteiraRepository.validar_chave_privada`: recomputes the digest of the
candidate secret and compares it with the stored one; `false` when no row exists. -/
def validar_chave_privada (db : DBState) (hash : String → String)
    (endereco chave_privada : String) : Bool :=
  match db.carteiras.find? (fun r => r.endereco_carteira == endereco) with
  | none => false
  | some row => row.hash_chave_privada == hash chave_privada

/-- `CarteiraRepository.buscar_saldo_moeda`: the balance of one currency in one
wallet, `none` when the (wallet, currency) row does not exist. -/
def buscar_saldo_moeda (db : DBState) (endereco codigo_moeda : String) : Option ℚ :=
  (db.saldos.find? (fun r =>
    r.endereco_carteira == endereco && r.codigo_moeda == codigo_moeda)).map
    (fun r => r.saldo)

/-- `CarteiraRepository.atualizar_saldo`: UPDATE of the balance of one
(wallet, currency) row. -/
def atualizar_saldo (db : DBState) (endereco codigo_moeda : String) (novo_saldo : ℚ) :
    DBState :=
  { db with
    saldos := db.saldos.map (fun r =>
      if r.endereco_carteira == endereco && r.codigo_moeda == codigo_moeda then
        { r with saldo := novo_saldo }
      else r) }

/-- `CarteiraRepository.registrar_deposito` / `registrar_saque`: INSERT of one
immutable row into `deposito_saque`. -/
def registrar_movimento (db : DBState) (rec : OperacaoRec) : DBState :=
  { db with movimentos := db.movimentos ++ [rec] }

/-- `CarteiraRepository.registrar_conversao`: INSERT of one immutable row into
`conversao`. -/
def registrar_conversao (db : DBState) (rec : ConversaoRec) : DBState :=
  { db with conversoes := db.conversoes ++ [rec] }

/-- `CarteiraRepository.registrar_transferencia`: INSERT of one immutable row into
`transferencia`. -/
def registrar_transferencia (db : DBState) (rec : TransferenciaRec) : DBState :=
  { db with transferencias := db.transferencias ++ [rec] }

/-- `CarteiraRepository.criar` applied to one generated (address, secret) pair:
INSERT of the wallet row (status defaults to "ATIVA") plus a zero balance row for
every currency in `moeda`, in one transaction; an address collision violates the
primary key and raises `IntegrityError` (the `Except.error` case). -/
def CarteiraRepository.criar (db : DBState) (hash : String → String)
    (endereco chave_privada : String) : Except Unit (DBState × CarteiraRow) :=
  if db.carteiras.any (fun r => r.endereco_carteira == endereco) then
    Except.error ()
  else
    let row : CarteiraRow :=
      { endereco_carteira := endereco
        data_criacao := db.carteiras.length
        status := "ATIVA"
        hash_chave_privada := hash chave_privada }
    Except.ok
      ({ db with
         carteiras := db.carteiras ++ [row]
         saldos := db.saldos ++ db.moedas.map (fun m =>
           { endereco_carteira := endereco, codigo_moeda := m, saldo := 0 }) },
       row)

/-! ### Service (`carteira_service.py`) -/

/-- The guard of `_validar_endereco` / `_validar_chave_privada`:
`not s or not s.strip()` — the string is empty or entirely whitespace. -/
def enderecoVazio (s : String) : Bool :=
  s.toList.all (fun c => c.isWhitespace)

/-- Default withdrawal fee rate: `TAXA_SAQUE_PERCENTUAL`, fallback "0.01". -/
def TAXA_SAQUE_PADRAO : ℚ := 1 / 100

/-- Default conversion fee rate: `TAXA_CONVERSAO_PERCENTUAL`, fallback "0.02". -/
def TAXA_CONVERSAO_PADRAO : ℚ := 1 / 50

/-- Default transfer fee rate: `TAXA_TRANSFERENCIA_PERCENTUAL`, fallback "0.005". -/
def TAXA_TRANSFERENCIA_PADRAO : ℚ := 1 / 200

structure DepositoRequest where
  codigo_moeda : String
  valor : ℚ
deriving DecidableEq, Repr

structure SaqueRequest where
  codigo_moeda : String
  valor : ℚ
  chave_privada : String
deriving DecidableEq, Repr

structure ConversaoRequest where
  moeda_origem : String
  moeda_destino : String
  valor : ℚ
  chave_privada : String
deriving DecidableEq, Repr

structure TransferenciaRequest where
  endereco_destino : String
  codigo_moeda : String
  valor : ℚ
  chave_privada : String
deriving DecidableEq, Repr

/-- `CarteiraService.criar_carteira`: one repository `criar` call; `IntegrityError`
is caught and re-raised as a `RuntimeError` — the service performs no retry. -/
def criar_carteira (db : DBState) (hash : String → String)
    (endereco chave_privada : String) : Resultado CarteiraRow :=
  match CarteiraRepository.criar db hash endereco chave_privada with
  | .error _ =>
      ⟨db, .error (.erroBanco "Erro ao gerar chaves únicas. Tente novamente.")⟩
  | .ok (db', row) => ⟨db', .ok row⟩

/-- `CarteiraService.bloquear`: validates the address, then
`atualizar_status(endereco, "BLOQUEADA")`; raises when the SELECT finds no row. -/
def bloquear (db : DBState) (endereco_carteira : String) : Resultado CarteiraRow :=
  if enderecoVazio endereco_carteira then
    ⟨db, .error (.campoObrigatorio "Endereço da carteira")⟩
  else
    match atualizar_status db endereco_carteira "BLOQUEADA" with
    | (db', none) => ⟨db', .error .carteiraNaoEncontrada⟩
    | (db', some row) => ⟨db', .ok row⟩

/-- `CarteiraService.realizar_deposito`: no fee, no authentication. -/
def realizar_deposito (db : DBState) (endereco_carteira : String)
    (request : DepositoRequest) : Resultado OperacaoRec :=
  if enderecoVazio endereco_carteira then
    ⟨db, .error (.campoObrigatorio "Endereço da carteira")⟩
  else
    match buscar_por_endereco db endereco_carteira with
    | none => ⟨db, .error .carteiraNaoEncontrada⟩
    | some carteira =>
      if !(carteira.status == "ATIVA") then ⟨db, .error .carteiraBloqueada⟩
      else
        match buscar_saldo_moeda db endereco_carteira request.codigo_moeda with
        | none => ⟨db, .error (.moedaNaoEncontrada request.codigo_moeda)⟩
        | some saldo_anterior =>
          let saldo_atual := saldo_anterior + request.valor
          let db1 := atualizar_saldo db endereco_carteira request.codigo_moeda saldo_atual
          let registro : OperacaoRec :=
            { endereco_carteira := endereco_carteira
              codigo_moeda := request.codigo_moeda
              tipo_operacao := "DEPOSITO"
              valor := request.valor
              taxa := 0
              valor_liquido := request.valor
              saldo_anterior := saldo_anterior
              saldo_atual := saldo_atual }
          ⟨registrar_movimento db1 registro, .ok registro⟩

/-- `CarteiraService.realizar_saque`: fee `valor * taxa_percentual`
(`TAXA_SAQUE_PERCENTUAL`, default 0.01), requires authentication. -/
def realizar_saque (db : DBState) (hash : String → String)
    (endereco_carteira : String) (request : SaqueRequest) (taxa_percentual : ℚ) :
    Resultado OperacaoRec :=
  if enderecoVazio endereco_carteira then
    ⟨db, .error (.campoObrigatorio "Endereço da carteira")⟩
  else if enderecoVazio request.chave_privada then
    ⟨db, .error (.campoObrigatorio "Chave privada")⟩
  else
    match buscar_por_endereco db endereco_carteira with
    | none => ⟨db, .error .carteiraNaoEncontrada⟩
    | some carteira =>
      if !(carteira.status == "ATIVA") then ⟨db, .error .carteiraBloqueada⟩
      else if !(validar_chave_privada db hash endereco_carteira request.chave_privada) then
        ⟨db, .error .chavePrivadaInvalida⟩
      else
        match buscar_saldo_moeda db endereco_carteira request.codigo_moeda with
        | none => ⟨db, .error (.moedaNaoEncontrada request.codigo_moeda)⟩
        | some saldo_anterior =>
          let taxa := request.valor * taxa_percentual
          let valor_total := request.valor + taxa
          if saldo_anterior < valor_total then ⟨db, .error .saldoInsuficiente⟩
          else
            let saldo_atual := saldo_anterior - valor_total
            let db1 := atualizar_saldo db endereco_carteira request.codigo_moeda saldo_atual
            let registro : OperacaoRec :=
              { endereco_carteira := endereco_carteira
                codigo_moeda := request.codigo_moeda
                tipo_operacao := "SAQUE"
                valor := request.valor
                taxa := taxa
                valor_liquido := request.valor
                saldo_anterior := saldo_anterior
                saldo_atual := saldo_atual }
            ⟨registrar_movimento db1 registro, .ok registro⟩

/-- `CarteiraService.realizar_conversao`: fee on the credited side
(`TAXA_CONVERSAO_PERCENTUAL`, default 0.02), requires authentication, consults the
Coinbase quote (the `cotacaoResultado` argument: the outcome of
`CoinbaseService.obter_cotacao`, fetched after all validations and before any
balance write). -/
def realizar_conversao (db : DBState) (hash : String → String)
    (endereco_carteira : String) (request : ConversaoRequest) (taxa_percentual : ℚ)
    (cotacaoResultado : Except Unit ℚ) : Resultado ConversaoRec :=
  if enderecoVazio endereco_carteira then
    ⟨db, .error (.campoObrigatorio "Endereço da carteira")⟩
  else if enderecoVazio request.chave_privada then
    ⟨db, .error (.campoObrigatorio "Chave privada")⟩
  else
    match buscar_por_endereco db endereco_carteira with
    | none => ⟨db, .error .carteiraNaoEncontrada⟩
    | some carteira =>
      if !(carteira.status == "ATIVA") then ⟨db, .error .carteiraBloqueada⟩
      else if !(validar_chave_privada db hash endereco_carteira request.chave_privada) then
        ⟨db, .error .chavePrivadaInvalida⟩
      else if request.moeda_origem == request.moeda_destino then
        ⟨db, .error .mesmaMoeda⟩
      else
        match buscar_saldo_moeda db endereco_carteira request.moeda_origem with
        | none => ⟨db, .error (.moedaNaoEncontrada request.moeda_origem)⟩
        | some saldo_origem_anterior =>
          match buscar_saldo_moeda db endereco_carteira request.moeda_destino with
          | none => ⟨db, .error (.moedaNaoEncontrada request.moeda_destino)⟩
          | some saldo_destino_anterior =>
            if saldo_origem_anterior < request.valor then
              ⟨db, .error .saldoInsuficiente⟩
            else
              match cotacaoResultado with
              | .error _ => ⟨db, .error .erroCotacao⟩
              | .ok cotacao =>
                let valor_convertido_bruto := request.valor * cotacao
                let taxa_conversao := valor_convertido_bruto * taxa_percentual
                let valor_destino := valor_convertido_bruto - taxa_conversao
                let saldo_origem_atual := saldo_origem_anterior - request.valor
                let saldo_destino_atual := saldo_destino_anterior + valor_destino
                let db1 := atualizar_saldo db endereco_carteira request.moeda_origem
                  saldo_origem_atual
                let db2 := atualizar_saldo db1 endereco_carteira request.moeda_destino
                  saldo_destino_atual
                let registro : ConversaoRec :=
                  { endereco_carteira := endereco_carteira
                    moeda_origem := request.moeda_origem
                    moeda_destino := request.moeda_destino
                    valor_origem := request.valor
                    cotacao := cotacao
                    taxa_conversao := taxa_conversao
                    valor_destino := valor_destino
                    saldo_origem_anterior := saldo_origem_anterior
                    saldo_origem_atual := saldo_origem_atual
                    saldo_destino_anterior := saldo_destino_anterior
                    saldo_destino_atual := saldo_destino_atual }
                ⟨registrar_conversao db2 registro, .ok registro⟩

/-- Fault injection point for the write phase of a transfer, reflecting
`db.py get_connection`: every repository call is its own transaction, so a
`SQLAlchemyError` raised by a later call rolls back only that call's writes
while the earlier, already-committed updates persist. -/
inductive FalhaTransferencia where
  | nenhuma
  | noCredito
  | noRegistro
deriving DecidableEq, Repr

/-- `CarteiraService.realizar_transferencia`: fee on the source side
(`TAXA_TRANSFERENCIA_PERCENTUAL`, default 0.005), requires authentication of the
source wallet.  The `falha` argument injects a store failure into one of the
repository calls of the write phase; `.nenhuma` is the failure-free run. -/
def realizar_transferencia_com_falha (db : DBState) (hash : String → String)
    (endereco_origem : String) (request : TransferenciaRequest) (taxa_percentual : ℚ)
    (falha : FalhaTransferencia) : Resultado TransferenciaRec :=
  if enderecoVazio endereco_origem then
    ⟨db, .error (.campoObrigatorio "Endereço da carteira de origem")⟩
  else if enderecoVazio request.endereco_destino then
    ⟨db, .error (.campoObrigatorio "Endereço da carteira de destino")⟩
  else if enderecoVazio request.chave_privada then
    ⟨db, .error (.campoObrigatorio "Chave privada")⟩
  else if endereco_origem == request.endereco_destino then
    ⟨db, .error .mesmaCarteira⟩
  else
    match buscar_por_endereco db endereco_origem with
    | none => ⟨db, .error .carteiraNaoEncontrada⟩
    | some carteira =>
      if !(carteira.status == "ATIVA") then ⟨db, .error .carteiraBloqueada⟩
      else
        match buscar_por_endereco db request.endereco_destino with
        | none => ⟨db, .error .carteiraDestinoNaoEncontrada⟩
        | some carteira_destino =>
          if !(carteira_destino.status == "ATIVA") then
            ⟨db, .error .carteiraDestinoBloqueada⟩
          else if !(validar_chave_privada db hash endereco_origem request.chave_privada) then
            ⟨db, .error .chavePrivadaInvalida⟩
          else
            match buscar_saldo_moeda db endereco_origem request.codigo_moeda with
            | none => ⟨db, .error (.moedaNaoEncontrada request.codigo_moeda)⟩
            | some saldo_origem_anterior =>
              match buscar_saldo_moeda db request.endereco_destino request.codigo_moeda with
              | none => ⟨db, .error (.moedaDestinoNaoEncontrada request.codigo_moeda)⟩
              | some saldo_destino_anterior =>
                let taxa := request.valor * taxa_percentual
                let valor_total_origem := request.valor + taxa
                if saldo_origem_anterior < valor_total_origem then
                  ⟨db, .error .saldoInsuficiente⟩
                else
                  let saldo_origem_atual := saldo_origem_anterior - valor_total_origem
                  let saldo_destino_atual := saldo_destino_anterior + request.valor
                  let db1 := atualizar_saldo db endereco_origem request.codigo_moeda
                    saldo_origem_atual
                  if falha == FalhaTransferencia.noCredito then
                    ⟨db1, .error (.erroBanco "Erro ao processar transferência no banco de dados")⟩
                  else
                    let db2 := atualizar_saldo db1 request.endereco_destino
                      request.codigo_moeda saldo_destino_atual
                    if falha == FalhaTransferencia.noRegistro then
                      ⟨db2, .error (.erroBanco "Erro ao processar transferência no banco de dados")⟩
                    else
                      let registro : TransferenciaRec :=
                        { endereco_origem := endereco_origem
                          endereco_destino := request.endereco_destino
                          codigo_moeda := request.codigo_moeda
                          valor := request.valor
                          taxa := taxa
                          valor_liquido := request.valor
                          saldo_origem_anterior := saldo_origem_anterior
                          saldo_origem_atual := saldo_origem_atual
                          saldo_destino_anterior := saldo_destino_anterior
                          saldo_destino_atual := saldo_destino_atual }
                      ⟨registrar_transferencia db2 registro, .ok registro⟩

/-- `CarteiraService.realizar_transferencia`, failure-free run. -/
def realizar_transferencia (db : DBState) (hash : String → String)
    (endereco_origem : String) (request : TransferenciaRequest) (taxa_percentual : ℚ) :
    Resultado TransferenciaRec :=
  realizar_transferencia_com_falha db hash endereco_origem request taxa_percentual
    .nenhuma


/-- One engine call as dispatched by the router: the request payload together with
the fee rate `_obter_taxa_percentual` yields at call time and, for a conversion,
the outcome of the Coinbase quote. -/
inductive Operacao where
  | deposito (endereco : String) (req : DepositoRequest)
  | saque (endereco : String) (req : SaqueRequest) (taxa : ℚ)
  | conversao (endereco : String) (req : ConversaoRequest) (taxa : ℚ)
      (cotacaoResultado : Except Unit ℚ)
  | transferencia (origem : String) (req : TransferenciaRequest) (taxa : ℚ)

/-- Observable outcome of one engine call: the database state afterwards and
whether the call raised an error. -/
def Operacao.resultado (hash : String → String) (db : DBState) :
    Operacao → DBState × Bool
  | .deposito e req =>
      ((realizar_deposito db e req).db, isErro (realizar_deposito db e req).res)
  | .saque e req t =>
      ((realizar_saque db hash e req t).db, isErro (realizar_saque db hash e req t).res)
  | .conversao e req t cot =>
      ((realizar_conversao db hash e req t cot).db,
       isErro (realizar_conversao db hash e req t cot).res)
  | .transferencia o req t =>
      ((realizar_transferencia db hash o req t).db,
       isErro (realizar_transferencia db hash o req t).res)

/-- The database state after one engine call. -/
def Operacao.run (hash : String → String) (db : DBState) (op : Operacao) : DBState :=
  (op.resultado hash db).1

/-- A valid engine call: positive amount (the request schemas demand `gt=0`), a
fee rate between 0 and 1, and a non-negative quoted rate. -/
def Operacao.valida : Operacao → Prop
  | .deposito _ req => 0 < req.valor
  | .saque _ req t => 0 < req.valor ∧ 0 ≤ t
  | .conversao _ req t cot =>
      0 < req.valor ∧ 0 ≤ t ∧ t ≤ 1 ∧ ∀ c, cot = .ok c → 0 ≤ c
  | .transferencia _ req t => 0 < req.valor ∧ 0 ≤ t

/-- Concrete store used by the witnesses: two active wallets with BTC and USD
balances. -/
def dbExemplo : DBState :=
  { carteiras := [⟨"a", 0, "ATIVA", "ka"⟩, ⟨"b", 1, "ATIVA", "kb"⟩]
    moedas := ["BTC", "USD"]
    saldos := [⟨"a", "BTC", 100⟩, ⟨"a", "USD", 50⟩, ⟨"b", "BTC", 5⟩, ⟨"b", "USD", 0⟩]
    movimentos := []
    conversoes := []
    transferencias := [] }

/-! ### Specification-level views of the operations (validation order and effects) -/

/-- First violated check in a fixed list of (violated?, error) pairs. -/
def primeiraFalha : List (Bool × Erro) → Option Erro
  | [] => none
  | (b, e) :: resto => if b then some e else primeiraFalha resto

/-- Whether the wallet exists and is not "ATIVA" (the `Carteira bloqueada` guard). -/
def statusBloqueado (db : DBState) (e : String) : Bool :=
  match buscar_por_endereco db e with
  | none => false
  | some c => !(c.status == "ATIVA")

/-- Whether the (wallet, currency) balance exists and is below the required total. -/
def saldoAbaixoDe (db : DBState) (e m : String) (total : ℚ) : Bool :=
  match buscar_saldo_moeda db e m with
  | none => false
  | some s => decide (s < total)

/-- The transfer validation checks in the order the code performs them. -/
def checksTransferencia (db : DBState) (hash : String → String) (o : String)
    (req : TransferenciaRequest) (t : ℚ) : List (Bool × Erro) :=
  [ (enderecoVazio o, .campoObrigatorio "Endereço da carteira de origem"),
    (enderecoVazio req.endereco_destino, .campoObrigatorio "Endereço da carteira de destino"),
    (enderecoVazio req.chave_privada, .campoObrigatorio "Chave privada"),
    (o == req.endereco_destino, .mesmaCarteira),
    ((buscar_por_endereco db o).isNone, .carteiraNaoEncontrada),
    (statusBloqueado db o, .carteiraBloqueada),
    ((buscar_por_endereco db req.endereco_destino).isNone, .carteiraDestinoNaoEncontrada),
    (statusBloqueado db req.endereco_destino, .carteiraDestinoBloqueada),
    (!(validar_chave_privada db hash o req.chave_privada), .chavePrivadaInvalida),
    ((buscar_saldo_moeda db o req.codigo_moeda).isNone, .moedaNaoEncontrada req.codigo_moeda),
    ((buscar_saldo_moeda db req.endereco_destino req.codigo_moeda).isNone,
      .moedaDestinoNaoEncontrada req.codigo_moeda),
    (saldoAbaixoDe db o req.codigo_moeda (req.valor + req.valor * t), .saldoInsuficiente) ]

/-- Specification-level description of a transfer: the first violated check's error
with no state change, otherwise debit source by amount+fee, credit destination by
amount, and record the transfer. -/
def transferenciaSpec (db : DBState) (hash : String → String) (o : String)
    (req : TransferenciaRequest) (t : ℚ) : Resultado TransferenciaRec :=
  match primeiraFalha (checksTransferencia db hash o req t) with
  | some e => ⟨db, .error e⟩
  | none =>
    let sO := (buscar_saldo_moeda db o req.codigo_moeda).getD 0
    let sD := (buscar_saldo_moeda db req.endereco_destino req.codigo_moeda).getD 0
    let registro : TransferenciaRec :=
      { endereco_origem := o
        endereco_destino := req.endereco_destino
        codigo_moeda := req.codigo_moeda
        valor := req.valor
        taxa := req.valor * t
        valor_liquido := req.valor
        saldo_origem_anterior := sO
        saldo_origem_atual := sO - (req.valor + req.valor * t)
        saldo_destino_anterior := sD
        saldo_destino_atual := sD + req.valor }
    ⟨registrar_transferencia
      (atualizar_saldo
        (atualizar_saldo db o req.codigo_moeda (sO - (req.valor + req.valor * t)))
        req.endereco_destino req.codigo_moeda (sD + req.valor)) registro,
    .ok registro⟩


/-- The withdrawal validation checks in the order the code performs them. -/
def checksSaque (db : DBState) (hash : String → String) (e : String)
    (req : SaqueRequest) (t : ℚ) : List (Bool × Erro) :=
  [ (enderecoVazio e, .campoObrigatorio "Endereço da carteira"),
    (enderecoVazio req.chave_privada, .campoObrigatorio "Chave privada"),
    ((buscar_por_endereco db e).isNone, .carteiraNaoEncontrada),
    (statusBloqueado db e, .carteiraBloqueada),
    (!(validar_chave_privada db hash e req.chave_privada), .chavePrivadaInvalida),
    ((buscar_saldo_moeda db e req.codigo_moeda).isNone, .moedaNaoEncontrada req.codigo_moeda),
    (saldoAbaixoDe db e req.codigo_moeda (req.valor + req.valor * t), .saldoInsuficiente) ]

/-- Specification-level description of a withdrawal. -/
def saqueSpec (db : DBState) (hash : String → String) (e : String)
    (req : SaqueRequest) (t : ℚ) : Resultado OperacaoRec :=
  match primeiraFalha (checksSaque db hash e req t) with
  | some err => ⟨db, .error err⟩
  | none =>
    let sA := (buscar_saldo_moeda db e req.codigo_moeda).getD 0
    let registro : OperacaoRec :=
      { endereco_carteira := e
        codigo_moeda := req.codigo_moeda
        tipo_operacao := "SAQUE"
        valor := req.valor
        taxa := req.valor * t
        valor_liquido := req.valor
        saldo_anterior := sA
        saldo_atual := sA - (req.valor + req.valor * t) }
    ⟨registrar_movimento
      (atualizar_saldo db e req.codigo_moeda (sA - (req.valor + req.valor * t))) registro,
    .ok registro⟩


/-- The deposit validation checks in the order the code performs them. -/
def checksDeposito (db : DBState) (e : String) (req : DepositoRequest) :
    List (Bool × Erro) :=
  [ (enderecoVazio e, .campoObrigatorio "Endereço da carteira"),
    ((buscar_por_endereco db e).isNone, .carteiraNaoEncontrada),
    (statusBloqueado db e, .carteiraBloqueada),
    ((buscar_saldo_moeda db e req.codigo_moeda).isNone, .moedaNaoEncontrada req.codigo_moeda) ]

/-- Specification-level description of a deposit. -/
def depositoSpec (db : DBState) (e : String) (req : DepositoRequest) :
    Resultado OperacaoRec :=
  match primeiraFalha (checksDeposito db e req) with
  | some err => ⟨db, .error err⟩
  | none =>
    let sA := (buscar_saldo_moeda db e req.codigo_moeda).getD 0
    let registro : OperacaoRec :=
      { endereco_carteira := e
        codigo_moeda := req.codigo_moeda
        tipo_operacao := "DEPOSITO"
        valor := req.valor
        taxa := 0
        valor_liquido := req.valor
        saldo_anterior := sA
        saldo_atual := sA + req.valor }
    ⟨registrar_movimento (atualizar_saldo db e req.codigo_moeda (sA + req.valor)) registro,
    .ok registro⟩


/-- The conversion validation checks in the order the code performs them (the quote
is only consulted after all of these pass). -/
def checksConversao (db : DBState) (hash : String → String) (e : String)
    (req : ConversaoRequest) : List (Bool × Erro) :=
  [ (enderecoVazio e, .campoObrigatorio "Endereço da carteira"),
    (enderecoVazio req.chave_privada, .campoObrigatorio "Chave privada"),
    ((buscar_por_endereco db e).isNone, .carteiraNaoEncontrada),
    (statusBloqueado db e, .carteiraBloqueada),
    (!(validar_chave_privada db hash e req.chave_privada), .chavePrivadaInvalida),
    (req.moeda_origem == req.moeda_destino, .mesmaMoeda),
    ((buscar_saldo_moeda db e req.moeda_origem).isNone, .moedaNaoEncontrada req.moeda_origem),
    ((buscar_saldo_moeda db e req.moeda_destino).isNone, .moedaNaoEncontrada req.moeda_destino),
    (saldoAbaixoDe db e req.moeda_origem req.valor, .saldoInsuficiente) ]

/-- Specification-level description of a conversion: first violated check's error,
else the quote outcome decides; on a quote the source is debited by exactly the
source amount and the destination credited by gross minus fee. -/
def conversaoSpec (db : DBState) (hash : String → String) (e : String)
    (req : ConversaoRequest) (t : ℚ) (cotacaoResultado : Except Unit ℚ) :
    Resultado ConversaoRec :=
  match primeiraFalha (checksConversao db hash e req) with
  | some err => ⟨db, .error err⟩
  | none =>
    match cotacaoResultado with
    | .error _ => ⟨db, .error .erroCotacao⟩
    | .ok cot =>
      let sO := (buscar_saldo_moeda db e req.moeda_origem).getD 0
      let sD := (buscar_saldo_moeda db e req.moeda_destino).getD 0
      let registro : ConversaoRec :=
        { endereco_carteira := e
          moeda_origem := req.moeda_origem
          moeda_destino := req.moeda_destino
          valor_origem := req.valor
          cotacao := cot
          taxa_conversao := req.valor * cot * t
          valor_destino := req.valor * cot - req.valor * cot * t
          saldo_origem_anterior := sO
          saldo_origem_atual := sO - req.valor
          saldo_destino_anterior := sD
          saldo_destino_atual := sD + (req.valor * cot - req.valor * cot * t) }
      ⟨registrar_conversao
        (atualizar_saldo (atualizar_saldo db e req.moeda_origem (sO - req.valor))
          e req.moeda_destino (sD + (req.valor * cot - req.valor * cot * t))) registro,
      .ok registro⟩


/-- All stored balances are non-negative. -/
def SaldosNaoNegativos (db : DBState) : Prop := ∀ r ∈ db.saldos, 0 ≤ r.saldo

/-! ### Helper lemmas -/

theorem find?_saldo_map_mesma (l : List SaldoRow) (e m : String) (v : ℚ)
    (h : (l.find? fun r => r.endereco_carteira == e && r.codigo_moeda == m).isSome) :
    Option.map (fun r => r.saldo)
      ((l.map fun r =>
          if r.endereco_carteira == e && r.codigo_moeda == m then
            { r with saldo := v } else r).find?
        fun r => r.endereco_carteira == e && r.codigo_moeda == m) = some v := by
  induction l with
  | nil => simp at h
  | cons r t ih =>
    rcases hp : (r.endereco_carteira == e && r.codigo_moeda == m) with _ | _
    · rw [List.find?_cons, hp] at h
      simp only [List.map_cons, hp, Bool.false_eq_true, if_false]
      rw [List.find?_cons, hp]
      exact ih h
    · simp only [List.map_cons, hp, if_true]
      have hp2 : (({ r with saldo := v } : SaldoRow).endereco_carteira == e &&
          ({ r with saldo := v } : SaldoRow).codigo_moeda == m) = true := hp
      rw [List.find?_cons, hp2]
      rfl

theorem find?_saldo_map_outra (l : List SaldoRow) (e m e' m' : String) (v : ℚ)
    (h : ¬(e' = e ∧ m' = m)) :
    Option.map (fun r => r.saldo)
      ((l.map fun r =>
          if r.endereco_carteira == e && r.codigo_moeda == m then
            { r with saldo := v } else r).find?
        fun r => r.endereco_carteira == e' && r.codigo_moeda == m') =
    Option.map (fun r => r.saldo)
      (l.find? fun r => r.endereco_carteira == e' && r.codigo_moeda == m') := by
  induction l with
  | nil => simp
  | cons r t ih =>
    rcases hp : (r.endereco_carteira == e && r.codigo_moeda == m) with _ | _
    · simp only [List.map_cons, hp, Bool.false_eq_true, if_false]
      simp only [List.find?_cons]
      rcases hq : (r.endereco_carteira == e' && r.codigo_moeda == m') with _ | _
      · exact ih
      · rfl
    · obtain ⟨h1, h2⟩ : r.endereco_carteira = e ∧ r.codigo_moeda = m := by simpa using hp
      have hq : (r.endereco_carteira == e' && r.codigo_moeda == m') = false := by
        simp only [Bool.and_eq_false_iff, beq_eq_false_iff_ne, ne_eq, h1, h2]
        by_contra hc
        push_neg at hc
        exact h ⟨hc.1.symm, hc.2.symm⟩
      simp only [List.map_cons, hp, if_true]
      have hq2 : (({ r with saldo := v } : SaldoRow).endereco_carteira == e' &&
          ({ r with saldo := v } : SaldoRow).codigo_moeda == m') = false := hq
      rw [List.find?_cons, hq2, List.find?_cons, hq]
      exact ih

theorem buscar_apos_atualizar_mesma (db : DBState) (e m : String) (v : ℚ)
    (h : (buscar_saldo_moeda db e m).isSome) :
    buscar_saldo_moeda (atualizar_saldo db e m v) e m = some v := by
  unfold buscar_saldo_moeda at *
  simp only [Option.isSome_map'] at h
  exact find?_saldo_map_mesma db.saldos e m v h

theorem buscar_apos_atualizar_outra (db : DBState) (e m e' m' : String) (v : ℚ)
    (h : ¬(e' = e ∧ m' = m)) :
    buscar_saldo_moeda (atualizar_saldo db e m v) e' m' = buscar_saldo_moeda db e' m' := by
  unfold buscar_saldo_moeda
  exact find?_saldo_map_outra db.saldos e m e' m' v h

theorem nonneg_atualizar (db : DBState) (e m : String) (v : ℚ)
    (h : SaldosNaoNegativos db) (hv : 0 ≤ v) :
    SaldosNaoNegativos (atualizar_saldo db e m v) := by
  intro r hr
  simp only [atualizar_saldo, List.mem_map] at hr
  obtain ⟨r0, hr0, rfl⟩ := hr
  by_cases hp : (r0.endereco_carteira == e && r0.codigo_moeda == m) = true
  · simpa [hp] using hv
  · simpa [hp] using h r0 hr0

theorem buscar_nonneg (db : DBState) (e m : String) (s : ℚ)
    (h : SaldosNaoNegativos db) (hs : buscar_saldo_moeda db e m = some s) : 0 ≤ s := by
  unfold buscar_saldo_moeda at hs
  rcases ho : db.saldos.find? (fun r => r.endereco_carteira == e && r.codigo_moeda == m) with _ | r
  · rw [ho] at hs; simp at hs
  · rw [ho] at hs
    simp only [Option.map_some'] at hs
    have hm := List.mem_of_find?_eq_some ho
    have hrs : r.saldo = s := Option.some.inj hs
    rw [← hrs]
    exact h _ hm

theorem buscar_registrar_movimento (db : DBState) (rec : OperacaoRec) (e m : String) :
    buscar_saldo_moeda (registrar_movimento db rec) e m = buscar_saldo_moeda db e m := rfl

theorem buscar_registrar_conversao (db : DBState) (rec : ConversaoRec) (e m : String) :
    buscar_saldo_moeda (registrar_conversao db rec) e m = buscar_saldo_moeda db e m := rfl

theorem buscar_registrar_transferencia (db : DBState) (rec : TransferenciaRec)
    (e m : String) :
    buscar_saldo_moeda (registrar_transferencia db rec) e m = buscar_saldo_moeda db e m :=
  rfl

theorem find?_carteira_map_status (l : List CarteiraRow) (e s : String)
    (h : ∃ r ∈ l, r.endereco_carteira = e) :
    ∃ c, ((l.map fun r =>
        if r.endereco_carteira == e then { r with status := s } else r).find?
      fun r => r.endereco_carteira == e) = some c ∧ c.status = s := by
  induction l with
  | nil => simp at h
  | cons r t ih =>
    rcases hp : (r.endereco_carteira == e) with _ | _
    · obtain ⟨r0, hr0, he⟩ := h
      rcases List.mem_cons.mp hr0 with rfl | hr0
      · rw [show (r0.endereco_carteira == e) = true by simpa using he] at hp
        cases hp
      · obtain ⟨c, hc, hcs⟩ := ih ⟨r0, hr0, he⟩
        refine ⟨c, ?_, hcs⟩
        simp only [List.map_cons, hp, Bool.false_eq_true, if_false]
        rw [List.find?_cons, hp]
        exact hc
    · refine ⟨{ r with status := s }, ?_, rfl⟩
      simp only [List.map_cons, hp, if_true]
      rw [List.find?_cons,
        show (({ r with status := s } : CarteiraRow).endereco_carteira == e) = true from hp]

theorem atualizar_status_map_idem (l : List CarteiraRow) (e s : String) :
    ((l.map fun r => if r.endereco_carteira == e then { r with status := s } else r).map
      fun r => if r.endereco_carteira == e then { r with status := s } else r) =
    l.map fun r => if r.endereco_carteira == e then { r with status := s } else r := by
  induction l with
  | nil => rfl
  | cons r t ih =>
    rcases hp : (r.endereco_carteira == e) with _ | _
    · simp only [List.map_cons, hp, Bool.false_eq_true, if_false, ih]
    · simp only [List.map_cons, hp, if_true]
      rw [ih]


theorem transferencia_eq_spec (db : DBState) (hash : String → String) (o : String)
    (req : TransferenciaRequest) (t : ℚ) :
    realizar_transferencia db hash o req t = transferenciaSpec db hash o req t := by
  unfold realizar_transferencia realizar_transferencia_com_falha transferenciaSpec
    checksTransferencia
  simp only [primeiraFalha]
  rcases h1 : enderecoVazio o with _ | _
  case true => simp [h1]
  simp only [h1, Bool.false_eq_true, if_false]
  rcases h2 : enderecoVazio req.endereco_destino with _ | _
  case true => simp [h2]
  simp only [h2, Bool.false_eq_true, if_false]
  rcases h3 : enderecoVazio req.chave_privada with _ | _
  case true => simp [h3]
  simp only [h3, Bool.false_eq_true, if_false]
  rcases h4 : (o == req.endereco_destino) with _ | _
  case true => simp [h4]
  simp only [h4, Bool.false_eq_true, if_false]
  rcases h5 : buscar_por_endereco db o with _ | c
  case none => simp [h5, statusBloqueado]
  simp only [h5, Option.isNone_some, Bool.false_eq_true, if_false]
  rcases h6 : (c.status == "ATIVA") with _ | _
  case false =>
    simp [statusBloqueado, h5, h6]
  have h6' : statusBloqueado db o = false := by simp [statusBloqueado, h5, h6]
  simp only [h6, h6', Bool.not_true, Bool.false_eq_true, if_false]
  rcases h7 : buscar_por_endereco db req.endereco_destino with _ | cd
  case none => simp [h7, statusBloqueado, h6]
  simp only [h7, Option.isNone_some, Bool.false_eq_true, if_false]
  rcases h8 : (cd.status == "ATIVA") with _ | _
  case false => simp [statusBloqueado, h7, h8, h6]
  have h8' : statusBloqueado db req.endereco_destino = false := by
    simp [statusBloqueado, h7, h8]
  simp only [h8, h8', Bool.not_true, Bool.false_eq_true, if_false]
  rcases h9 : validar_chave_privada db hash o req.chave_privada with _ | _
  case false => simp [h9, h6, h8]
  simp only [h9, Bool.not_true, Bool.false_eq_true, if_false]
  rcases h10 : buscar_saldo_moeda db o req.codigo_moeda with _ | sO
  case none => simp [h10, h6, h8, saldoAbaixoDe]
  simp only [h10, Option.isNone_some, Bool.false_eq_true, if_false]
  rcases h11 : buscar_saldo_moeda db req.endereco_destino req.codigo_moeda with _ | sD
  case none => simp [h11, h6, h8, saldoAbaixoDe]
  simp only [h11, Option.isNone_some, Bool.false_eq_true, if_false]
  rcases h12 : decide (sO < req.valor + req.valor * t) with _ | _
  case true =>
    have := of_decide_eq_true h12
    simp [saldoAbaixoDe, h10, h12, this, h6, h8]
  have hlt := of_decide_eq_false h12
  have h12' : saldoAbaixoDe db o req.codigo_moeda (req.valor + req.valor * t) = false := by
    simp [saldoAbaixoDe, h10, h12]
  simp only [h12', Bool.false_eq_true, if_false, if_neg hlt]
  simp [h6, h8]


theorem saque_eq_spec (db : DBState) (hash : String → String) (e : String)
    (req : SaqueRequest) (t : ℚ) :
    realizar_saque db hash e req t = saqueSpec db hash e req t := by
  unfold realizar_saque saqueSpec checksSaque
  simp only [primeiraFalha]
  rcases h1 : enderecoVazio e with _ | _
  case true => simp [h1]
  simp only [h1, Bool.false_eq_true, if_false]
  rcases h2 : enderecoVazio req.chave_privada with _ | _
  case true => simp [h2]
  simp only [h2, Bool.false_eq_true, if_false]
  rcases h3 : buscar_por_endereco db e with _ | c
  case none => simp [h3, statusBloqueado]
  simp only [h3, Option.isNone_some, Bool.false_eq_true, if_false]
  rcases h4 : (c.status == "ATIVA") with _ | _
  case false => simp [statusBloqueado, h3, h4]
  have h4' : statusBloqueado db e = false := by simp [statusBloqueado, h3, h4]
  simp only [h4, h4', Bool.not_true, Bool.false_eq_true, if_false]
  rcases h5 : validar_chave_privada db hash e req.chave_privada with _ | _
  case false => simp [h5, h4]
  simp only [h5, Bool.not_true, Bool.false_eq_true, if_false]
  rcases h6 : buscar_saldo_moeda db e req.codigo_moeda with _ | sA
  case none => simp [h6, h4, saldoAbaixoDe]
  simp only [h6, Option.isNone_some, Bool.false_eq_true, if_false]
  rcases h7 : decide (sA < req.valor + req.valor * t) with _ | _
  case true =>
    simp [saldoAbaixoDe, h6, h7, of_decide_eq_true h7, h4]
  have hlt := of_decide_eq_false h7
  have h7' : saldoAbaixoDe db e req.codigo_moeda (req.valor + req.valor * t) = false := by
    simp [saldoAbaixoDe, h6, h7]
  simp only [h7', Bool.false_eq_true, if_false, if_neg hlt]
  simp [h4]


theorem deposito_eq_spec (db : DBState) (e : String) (req : DepositoRequest) :
    realizar_deposito db e req = depositoSpec db e req := by
  unfold realizar_deposito depositoSpec checksDeposito
  simp only [primeiraFalha]
  rcases h1 : enderecoVazio e with _ | _
  case true => simp [h1]
  simp only [h1, Bool.false_eq_true, if_false]
  rcases h2 : buscar_por_endereco db e with _ | c
  case none => simp [h2, statusBloqueado]
  simp only [h2, Option.isNone_some, Bool.false_eq_true, if_false]
  rcases h3 : (c.status == "ATIVA") with _ | _
  case false => simp [statusBloqueado, h2, h3]
  have h3' : statusBloqueado db e = false := by simp [statusBloqueado, h2, h3]
  simp only [h3, h3', Bool.not_true, Bool.false_eq_true, if_false]
  rcases h4 : buscar_saldo_moeda db e req.codigo_moeda with _ | sA
  case none => simp [h4, h3]
  simp only [h4, Option.isNone_some, Bool.false_eq_true, if_false]
  simp [h3]


theorem conversao_eq_spec (db : DBState) (hash : String → String) (e : String)
    (req : ConversaoRequest) (t : ℚ) (cotacaoResultado : Except Unit ℚ) :
    realizar_conversao db hash e req t cotacaoResultado =
      conversaoSpec db hash e req t cotacaoResultado := by
  unfold realizar_conversao conversaoSpec checksConversao
  simp only [primeiraFalha]
  rcases h1 : enderecoVazio e with _ | _
  case true => simp [h1]
  simp only [h1, Bool.false_eq_true, if_false]
  rcases h2 : enderecoVazio req.chave_privada with _ | _
  case true => simp [h2]
  simp only [h2, Bool.false_eq_true, if_false]
  rcases h3 : buscar_por_endereco db e with _ | c
  case none => simp [h3, statusBloqueado]
  simp only [h3, Option.isNone_some, Bool.false_eq_true, if_false]
  rcases h4 : (c.status == "ATIVA") with _ | _
  case false => simp [statusBloqueado, h3, h4]
  have h4' : statusBloqueado db e = false := by simp [statusBloqueado, h3, h4]
  simp only [h4, h4', Bool.not_true, Bool.false_eq_true, if_false]
  rcases h5 : validar_chave_privada db hash e req.chave_privada with _ | _
  case false => simp [h5, h4]
  simp only [h5, Bool.not_true, Bool.false_eq_true, if_false]
  rcases h6 : (req.moeda_origem == req.moeda_destino) with _ | _
  case true => simp [h6, h4]
  simp only [h6, Bool.false_eq_true, if_false]
  rcases h7 : buscar_saldo_moeda db e req.moeda_origem with _ | sO
  case none => simp [h7, h4, saldoAbaixoDe]
  simp only [h7, Option.isNone_some, Bool.false_eq_true, if_false]
  rcases h8 : buscar_saldo_moeda db e req.moeda_destino with _ | sD
  case none => simp [h8, h4]
  simp only [h8, Option.isNone_some, Bool.false_eq_true, if_false]
  rcases h9 : decide (sO < req.valor) with _ | _
  case true => simp [saldoAbaixoDe, h7, h9, of_decide_eq_true h9, h4]
  have hlt := of_decide_eq_false h9
  have h9' : saldoAbaixoDe db e req.moeda_origem req.valor = false := by
    simp [saldoAbaixoDe, h7, h9]
  simp only [h9', Bool.false_eq_true, if_false, if_neg hlt]
  rcases cotacaoResultado with _ | cot
  · simp [h4]
  · simp [h4]

/-! ### Claim theorems -/

/-- Claim C10: secret verification against a non-existent wallet address returns
`false` for every candidate secret (the repository returns `False` when the SELECT
finds no row, indistinguishable from a wrong secret), so authorization can never
succeed for an address that has no stored wallet row. -/
theorem C10_validar_chave_sem_carteira (db : DBState) (hash : String → String)
    (endereco chave : String) (h : buscar_por_endereco db endereco = none) :
    validar_chave_privada db hash endereco chave = false := by
  unfold validar_chave_privada
  unfold buscar_por_endereco at h
  rw [h]

theorem C10_witness :
    buscar_por_endereco ⟨[], [], [], [], [], []⟩ "x" = none ∧
    validar_chave_privada ⟨[], [], [], [], [], []⟩ id "x" "segredo" = false :=
  ⟨rfl, C10_validar_chave_sem_carteira ⟨[], [], [], [], [], []⟩ id "x" "segredo" rfl⟩

/-- Claim C9: blocking a wallet is idempotent and never rejected for status
reasons: for every existing wallet, whatever its current status, `bloquear`
succeeds and returns the wallet with status "BLOQUEADA"; blocking twice leaves the
same stored state as blocking once; and `atualizar_status` writes the given status
unconditionally to every row with the given address. -/
theorem C9_bloquear_idempotente (db : DBState) (e : String) :
    (enderecoVazio e = false → (∃ r ∈ db.carteiras, r.endereco_carteira = e) →
      ∃ c, (bloquear db e).res = .ok c ∧ c.status = "BLOQUEADA") ∧
    (bloquear (bloquear db e).db e).db = (bloquear db e).db ∧
    (∀ s r, r ∈ (atualizar_status db e s).1.carteiras → r.endereco_carteira = e →
      r.status = s) := by
  have hdb : ∀ d : DBState, (bloquear d e).db =
      if enderecoVazio e then d else (atualizar_status d e "BLOQUEADA").1 := by
    intro d
    unfold bloquear
    rcases hv : enderecoVazio e with _ | _
    · simp only [Bool.false_eq_true, if_false]
      rcases hm : atualizar_status d e "BLOQUEADA" with ⟨d', c?⟩
      cases c? <;> simp
    · simp
  refine ⟨?_, ?_, ?_⟩
  · intro hv hex
    unfold bloquear
    simp only [hv, Bool.false_eq_true, if_false]
    unfold atualizar_status buscar_por_endereco
    simp only []
    obtain ⟨c, hc, hcs⟩ := find?_carteira_map_status db.carteiras e "BLOQUEADA" hex
    rw [hc]
    exact ⟨c, rfl, hcs⟩
  · rw [hdb, hdb]
    rcases hv : enderecoVazio e with _ | _
    · simp only [Bool.false_eq_true, if_false]
      unfold atualizar_status
      simp only []
      rw [atualizar_status_map_idem]
    · simp
  · intro s r hr he
    unfold atualizar_status at hr
    simp only [List.mem_map] at hr
    obtain ⟨r0, hr0, rfl⟩ := hr
    by_cases hp : r0.endereco_carteira = e
    · simp [hp]
    · simp [hp] at he

theorem C9_witness :
    (∃ c, (bloquear ⟨[⟨"a", 0, "BLOQUEADA", "ka"⟩], [], [], [], [], []⟩ "a").res = .ok c ∧
      c.status = "BLOQUEADA") ∧
    (bloquear (bloquear ⟨[⟨"a", 0, "BLOQUEADA", "ka"⟩], [], [], [], [], []⟩ "a").db "a").db =
      (bloquear ⟨[⟨"a", 0, "BLOQUEADA", "ka"⟩], [], [], [], [], []⟩ "a").db :=
  ⟨(C9_bloquear_idempotente ⟨[⟨"a", 0, "BLOQUEADA", "ka"⟩], [], [], [], [], []⟩ "a").1
      (by decide) ⟨⟨"a", 0, "BLOQUEADA", "ka"⟩, by simp, rfl⟩,
    (C9_bloquear_idempotente ⟨[⟨"a", 0, "BLOQUEADA", "ka"⟩], [], [], [], [], []⟩ "a").2.1⟩


/-- Claim C2: for every withdrawal on an active wallet with a correct secret and
a known currency, fee = amount × rate; it fails with InsufficientFunds exactly
when balance < amount + fee (leaving the store untouched), and on success the new
balance is the old one minus amount + fee, with the record carrying that fee and
net = amount. -/
theorem C2_saque_taxa_e_saldo (db : DBState) (hash : String → String) (e : String)
    (req : SaqueRequest) (t : ℚ) (c : CarteiraRow) (saldo : ℚ)
    (he : enderecoVazio e = false) (hk : enderecoVazio req.chave_privada = false)
    (hc : buscar_por_endereco db e = some c) (hst : c.status = "ATIVA")
    (hauth : validar_chave_privada db hash e req.chave_privada = true)
    (hs : buscar_saldo_moeda db e req.codigo_moeda = some saldo) :
    ((realizar_saque db hash e req t).res = .error .saldoInsuficiente ↔
      saldo < req.valor + req.valor * t) ∧
    (saldo < req.valor + req.valor * t → (realizar_saque db hash e req t).db = db) ∧
    (req.valor + req.valor * t ≤ saldo →
      ∃ op, (realizar_saque db hash e req t).res = .ok op ∧
        op.taxa = req.valor * t ∧ op.valor_liquido = req.valor ∧
        buscar_saldo_moeda (realizar_saque db hash e req t).db e req.codigo_moeda =
          some (saldo - (req.valor + req.valor * t))) := by
  have hR : realizar_saque db hash e req t =
      if saldo < req.valor + req.valor * t then ⟨db, .error .saldoInsuficiente⟩
      else
        ⟨registrar_movimento
          (atualizar_saldo db e req.codigo_moeda (saldo - (req.valor + req.valor * t)))
          ⟨e, req.codigo_moeda, "SAQUE", req.valor, req.valor * t, req.valor, saldo,
            saldo - (req.valor + req.valor * t)⟩,
        .ok ⟨e, req.codigo_moeda, "SAQUE", req.valor, req.valor * t, req.valor, saldo,
            saldo - (req.valor + req.valor * t)⟩⟩ := by
    unfold realizar_saque
    simp only [he, hk, hc, hauth, hs, hst, Bool.false_eq_true, if_false,
      beq_self_eq_true, Bool.not_true, Bool.not_eq_true]
  rw [hR]
  by_cases hlt : saldo < req.valor + req.valor * t
  · simp only [if_pos hlt]
    refine ⟨?_, ?_, ?_⟩
    · simp [hlt]
    · intro _; trivial
    · intro hle; exact absurd hlt (not_lt.mpr hle)
  · simp only [if_neg hlt]
    refine ⟨?_, ?_, ?_⟩
    · simp [hlt]
    · intro h; exact absurd h hlt
    · intro hle
      refine ⟨_, rfl, rfl, rfl, ?_⟩
      rw [buscar_registrar_movimento]
      exact buscar_apos_atualizar_mesma db e req.codigo_moeda _ (by rw [hs]; rfl)


theorem primeiraFalha_eq_none (l : List (Bool × Erro)) :
    primeiraFalha l = none ↔ ∀ p ∈ l, p.1 = false := by
  induction l with
  | nil => simp [primeiraFalha]
  | cons p resto ih =>
    obtain ⟨b, err⟩ := p
    cases b <;> simp [primeiraFalha, ih]

/-- Claim C6 (counterexample): with source currency = target currency on a
currency the wallet does not hold, the conversion reports `mesmaMoeda` although
the claimed order (currency existence before operation-specific rules) demands
the currency-existence error; likewise a transfer from an address to itself is
rejected with `mesmaCarteira` although neither wallet exists. -/
theorem C6_contraexemplo :
    buscar_saldo_moeda dbExemplo "a" "DOGE" = none ∧
    (realizar_conversao dbExemplo id "a" ⟨"DOGE", "DOGE", 10, "ka"⟩ (1/50) (.ok 2)).res
      = .error .mesmaMoeda ∧
    buscar_por_endereco dbExemplo "x" = none ∧
    (realizar_transferencia dbExemplo id "x" ⟨"x", "BTC", 10, "ka"⟩ (1/200)).res
      = .error .mesmaCarteira := by
  refine ⟨rfl, ?_, rfl, ?_⟩ <;> decide

/-- Claim C6 (amended): for every engine operation the reported error is the first
violated check in the code's fixed order, which matches the claimed order except
that transfer checks SameWallet directly after the non-empty input checks (before
wallet existence) and conversion checks SameCurrency directly after secret
verification (before currency existence). -/
theorem C6_ordem_validacao :
    (∀ (db : DBState) (hash : String → String) (e : String) (req : SaqueRequest)
        (t : ℚ) (err : Erro),
      primeiraFalha (checksSaque db hash e req t) = some err →
        realizar_saque db hash e req t = ⟨db, .error err⟩) ∧
    (∀ (db : DBState) (e : String) (req : DepositoRequest) (err : Erro),
      primeiraFalha (checksDeposito db e req) = some err →
        realizar_deposito db e req = ⟨db, .error err⟩) ∧
    (∀ (db : DBState) (hash : String → String) (e : String) (req : ConversaoRequest)
        (t : ℚ) (cot : Except Unit ℚ) (err : Erro),
      primeiraFalha (checksConversao db hash e req) = some err →
        realizar_conversao db hash e req t cot = ⟨db, .error err⟩) ∧
    (∀ (db : DBState) (hash : String → String) (o : String)
        (req : TransferenciaRequest) (t : ℚ) (err : Erro),
      primeiraFalha (checksTransferencia db hash o req t) = some err →
        realizar_transferencia db hash o req t = ⟨db, .error err⟩) := by
  refine ⟨?_, ?_, ?_, ?_⟩
  · intro db hash e req t err h
    rw [saque_eq_spec]
    unfold saqueSpec
    rw [h]
  · intro db e req err h
    rw [deposito_eq_spec]
    unfold depositoSpec
    rw [h]
  · intro db hash e req t cot err h
    rw [conversao_eq_spec]
    unfold conversaoSpec
    rw [h]
  · intro db hash o req t err h
    rw [transferencia_eq_spec]
    unfold transferenciaSpec
    rw [h]

theorem C6_ordem_validacao_witness :
    realizar_saque dbExemplo id "x" ⟨"BTC", 10, "ka"⟩ (1/100)
      = ⟨dbExemplo, .error .carteiraNaoEncontrada⟩ ∧
    realizar_transferencia dbExemplo id "a" ⟨"a", "BTC", 10, "ka"⟩ (1/200)
      = ⟨dbExemplo, .error .mesmaCarteira⟩ :=
  ⟨C6_ordem_validacao.1 dbExemplo id "x" ⟨"BTC", 10, "ka"⟩ (1/100)
      .carteiraNaoEncontrada (by decide),
   C6_ordem_validacao.2.2.2 dbExemplo id "a" ⟨"a", "BTC", 10, "ka"⟩ (1/200)
      .mesmaCarteira (by decide)⟩

/-- Claim C7: when the quote provider fails, the conversion fails and neither
balance is mutated (the quote is only consulted after all validations and before
any write); moreover every conversion error leaves the store unchanged. -/
theorem C7_cotacao_falha_sem_mutacao (db : DBState) (hash : String → String)
    (e : String) (req : ConversaoRequest) (t : ℚ) :
    (isErro (realizar_conversao db hash e req t (.error ())).res = true ∧
      (realizar_conversao db hash e req t (.error ())).db = db) ∧
    (∀ (cot : Except Unit ℚ) (err : Erro),
      (realizar_conversao db hash e req t cot).res = .error err →
        (realizar_conversao db hash e req t cot).db = db) := by
  constructor
  · rw [conversao_eq_spec]
    unfold conversaoSpec
    rcases hpf : primeiraFalha (checksConversao db hash e req) with _ | err
    · exact ⟨rfl, rfl⟩
    · exact ⟨rfl, rfl⟩
  · intro cot err h
    rw [conversao_eq_spec] at h ⊢
    unfold conversaoSpec at h ⊢
    rcases hpf : primeiraFalha (checksConversao db hash e req) with _ | err2
    · try simp only [hpf] at h ⊢
      rcases cot with _ | c
      · rfl
      · exact absurd h (by simp)
    · simp only [hpf] at h ⊢

theorem C7_witness :
    (realizar_conversao dbExemplo id "a" ⟨"BTC", "USD", 10, "ka"⟩ (1/50)
        (.error ())).db = dbExemplo :=
  (C7_cotacao_falha_sem_mutacao dbExemplo id "a" ⟨"BTC", "USD", 10, "ka"⟩ (1/50)).2
    (.error ()) .erroCotacao (by decide)

/-- Claim C8 (counterexample): on an address collision, wallet creation surfaces
the failure at once — the engine performs no retry, although a retry with a fresh
address (here "c") would have succeeded. -/
theorem C8_contraexemplo :
    (criar_carteira dbExemplo id "a" "chave2").res
      = .error (.erroBanco "Erro ao gerar chaves únicas. Tente novamente.") ∧
    (criar_carteira dbExemplo id "a" "chave2").db = dbExemplo ∧
    ∃ p, CarteiraRepository.criar dbExemplo id "c" "chave2" = .ok p := by
  exact ⟨by decide, by decide, ⟨_, rfl⟩⟩

/-- Claim C8 (amended): on a duplicate-address collision the engine does not
retry: `criar_carteira` converts the `IntegrityError` into an immediate failure
advising the caller to try again, leaving the store unchanged. -/
theorem C8_sem_retry (db : DBState) (hash : String → String) (e chave : String)
    (h : ∃ r ∈ db.carteiras, r.endereco_carteira = e) :
    criar_carteira db hash e chave
      = ⟨db, .error (.erroBanco "Erro ao gerar chaves únicas. Tente novamente.")⟩ := by
  unfold criar_carteira CarteiraRepository.criar
  have hany : (db.carteiras.any fun r => r.endereco_carteira == e) = true := by
    obtain ⟨r, hr, he⟩ := h
    exact List.any_eq_true.mpr ⟨r, hr, by simpa using he⟩
  rw [hany]
  rfl

theorem C8_sem_retry_witness :
    criar_carteira dbExemplo id "a" "chave2"
      = ⟨dbExemplo, .error (.erroBanco "Erro ao gerar chaves únicas. Tente novamente.")⟩ :=
  C8_sem_retry dbExemplo id "a" "chave2" ⟨⟨"a", 0, "ATIVA", "ka"⟩, by decide, rfl⟩

/-- Claim C1 (refuted by the code): the three writes of a transfer are not one
atomic unit.  `get_connection` scopes one transaction per repository call, so when
the destination-credit UPDATE fails, the already-committed source debit persists:
the failed run below leaves the source at 89.95 (= 1799/20) instead of its
original 100 while the destination still holds its original 5 — observable
partial state. -/
theorem C1_transferencia_nao_atomica :
    isErro (realizar_transferencia_com_falha dbExemplo id "a" ⟨"b", "BTC", 10, "ka"⟩
      (1/200) .noCredito).res = true ∧
    buscar_saldo_moeda (realizar_transferencia_com_falha dbExemplo id "a"
      ⟨"b", "BTC", 10, "ka"⟩ (1/200) .noCredito).db "a" "BTC" = some (1799/20) ∧
    buscar_saldo_moeda (realizar_transferencia_com_falha dbExemplo id "a"
      ⟨"b", "BTC", 10, "ka"⟩ (1/200) .noCredito).db "b" "BTC" = some 5 ∧
    (1799/20 : ℚ) ≠ 100 := by
  have hval : realizar_transferencia_com_falha dbExemplo id "a" ⟨"b", "BTC", 10, "ka"⟩
      (1/200) .noCredito =
      ⟨{ carteiras := [⟨"a", 0, "ATIVA", "ka"⟩, ⟨"b", 1, "ATIVA", "kb"⟩]
         moedas := ["BTC", "USD"]
         saldos := [⟨"a", "BTC", 1799/20⟩, ⟨"a", "USD", 50⟩, ⟨"b", "BTC", 5⟩,
           ⟨"b", "USD", 0⟩]
         movimentos := []
         conversoes := []
         transferencias := [] },
       .error (.erroBanco "Erro ao processar transferência no banco de dados")⟩ := by
    simp +decide [realizar_transferencia_com_falha, dbExemplo, enderecoVazio,
      buscar_por_endereco, validar_chave_privada, buscar_saldo_moeda, atualizar_saldo,
      List.find?]
    norm_num
  rw [hval]
  exact ⟨rfl, rfl, rfl, by norm_num⟩

/-- Claim C3: for every successful transfer the source is debited exactly
amount + fee and the destination credited exactly amount (no fee on the credited
side), so sourceDelta + destinationDelta = -fee with fee = amount × rate. -/
theorem C3_transferencia_soma_zero (db : DBState) (hash : String → String)
    (o : String) (req : TransferenciaRequest) (t : ℚ) (tr : TransferenciaRec)
    (sO sD : ℚ)
    (hok : (realizar_transferencia db hash o req t).res = .ok tr)
    (hsO : buscar_saldo_moeda db o req.codigo_moeda = some sO)
    (hsD : buscar_saldo_moeda db req.endereco_destino req.codigo_moeda = some sD) :
    buscar_saldo_moeda (realizar_transferencia db hash o req t).db o req.codigo_moeda
      = some (sO - (req.valor + req.valor * t)) ∧
    buscar_saldo_moeda (realizar_transferencia db hash o req t).db
      req.endereco_destino req.codigo_moeda = some (sD + req.valor) ∧
    ((sO - (req.valor + req.valor * t)) - sO) + ((sD + req.valor) - sD)
      = -(req.valor * t) ∧
    tr.taxa = req.valor * t ∧ tr.valor_liquido = req.valor := by
  rw [transferencia_eq_spec] at hok ⊢
  unfold transferenciaSpec at hok ⊢
  rcases hpf : primeiraFalha (checksTransferencia db hash o req t) with _ | err
  · try simp only [hpf] at hok ⊢
    have hall := (primeiraFalha_eq_none _).mp hpf
    have hne : ¬(o = req.endereco_destino) := by
      have h4 := hall ((o == req.endereco_destino), Erro.mesmaCarteira)
        (by simp [checksTransferencia])
      simpa using h4
    simp only [hsO, hsD, Option.getD_some] at hok ⊢
    refine ⟨?_, ?_, by ring, ?_, ?_⟩
    · rw [buscar_registrar_transferencia,
        buscar_apos_atualizar_outra _ _ _ _ _ _ (fun hc => hne hc.1),
        buscar_apos_atualizar_mesma _ _ _ _ (by rw [hsO]; rfl)]
    · rw [buscar_registrar_transferencia,
        buscar_apos_atualizar_mesma _ _ _ _ ?_]
      rw [buscar_apos_atualizar_outra _ _ _ _ _ _ (fun hc => hne hc.1.symm), hsD]
      rfl
    · obtain rfl : _ = tr := Except.ok.inj hok
      rfl
    · obtain rfl : _ = tr := Except.ok.inj hok
      rfl
  · simp only [hpf] at hok
    exact absurd hok (by simp)

theorem C3_witness :
    buscar_saldo_moeda (realizar_transferencia dbExemplo id "a" ⟨"b", "BTC", 10, "ka"⟩
      TAXA_TRANSFERENCIA_PADRAO).db "a" "BTC" = some (1799/20) ∧
    buscar_saldo_moeda (realizar_transferencia dbExemplo id "a" ⟨"b", "BTC", 10, "ka"⟩
      TAXA_TRANSFERENCIA_PADRAO).db "b" "BTC" = some 15 := by
  have hok : (realizar_transferencia dbExemplo id "a" ⟨"b", "BTC", 10, "ka"⟩
      TAXA_TRANSFERENCIA_PADRAO).res =
      .ok ⟨"a", "b", "BTC", 10, 10 * TAXA_TRANSFERENCIA_PADRAO, 10, 100,
        100 - (10 + 10 * TAXA_TRANSFERENCIA_PADRAO), 5, 5 + 10⟩ := by
    simp +decide [realizar_transferencia, realizar_transferencia_com_falha, dbExemplo,
      enderecoVazio, buscar_por_endereco, validar_chave_privada, buscar_saldo_moeda,
      atualizar_saldo, registrar_transferencia, TAXA_TRANSFERENCIA_PADRAO, List.find?]
    norm_num
  have h := C3_transferencia_soma_zero dbExemplo id "a" ⟨"b", "BTC", 10, "ka"⟩
    TAXA_TRANSFERENCIA_PADRAO _ 100 5 hok rfl rfl
  refine ⟨?_, ?_⟩
  · rw [h.1]; norm_num [TAXA_TRANSFERENCIA_PADRAO]
  · rw [h.2.1]; norm_num

/-- Claim C4: for every successful conversion with quoted rate c and fee rate t,
gross = amount × c, fee = gross × t, the destination is credited gross − fee and
the source debited exactly the source amount (the fee falls on the destination
side only). -/
theorem C4_conversao_taxa_no_destino (db : DBState) (hash : String → String)
    (e : String) (req : ConversaoRequest) (t : ℚ) (cot : Except Unit ℚ)
    (r : ConversaoRec) (c sO sD : ℚ)
    (hok : (realizar_conversao db hash e req t cot).res = .ok r)
    (hcot : cot = .ok c)
    (hsO : buscar_saldo_moeda db e req.moeda_origem = some sO)
    (hsD : buscar_saldo_moeda db e req.moeda_destino = some sD) :
    r.taxa_conversao = req.valor * c * t ∧
    r.valor_destino = req.valor * c - req.valor * c * t ∧
    buscar_saldo_moeda (realizar_conversao db hash e req t cot).db e req.moeda_origem
      = some (sO - req.valor) ∧
    buscar_saldo_moeda (realizar_conversao db hash e req t cot).db e req.moeda_destino
      = some (sD + (req.valor * c - req.valor * c * t)) := by
  subst hcot
  rw [conversao_eq_spec] at hok ⊢
  unfold conversaoSpec at hok ⊢
  rcases hpf : primeiraFalha (checksConversao db hash e req) with _ | err
  · try simp only [hpf] at hok ⊢
    have hall := (primeiraFalha_eq_none _).mp hpf
    have hne : ¬(req.moeda_origem = req.moeda_destino) := by
      have h6 := hall ((req.moeda_origem == req.moeda_destino), Erro.mesmaMoeda)
        (by simp [checksConversao])
      simpa using h6
    simp only [hsO, hsD, Option.getD_some] at hok ⊢
    refine ⟨?_, ?_, ?_, ?_⟩
    · obtain rfl : _ = r := Except.ok.inj hok
      rfl
    · obtain rfl : _ = r := Except.ok.inj hok
      rfl
    · rw [buscar_registrar_conversao,
        buscar_apos_atualizar_outra _ _ _ _ _ _ (fun hc => hne hc.2),
        buscar_apos_atualizar_mesma _ _ _ _ (by rw [hsO]; rfl)]
    · rw [buscar_registrar_conversao,
        buscar_apos_atualizar_mesma _ _ _ _ ?_]
      rw [buscar_apos_atualizar_outra _ _ _ _ _ _ (fun hc => hne hc.2.symm), hsD]
      rfl
  · simp only [hpf] at hok
    exact absurd hok (by simp)

theorem C4_witness :
    (realizar_conversao dbExemplo id "a" ⟨"BTC", "USD", 100, "ka"⟩ TAXA_CONVERSAO_PADRAO
      (.ok 2)).res = .ok ⟨"a", "BTC", "USD", 100, 2, 4, 196, 100, 0, 50, 246⟩ ∧
    buscar_saldo_moeda (realizar_conversao dbExemplo id "a" ⟨"BTC", "USD", 100, "ka"⟩
      TAXA_CONVERSAO_PADRAO (.ok 2)).db "a" "BTC" = some 0 ∧
    buscar_saldo_moeda (realizar_conversao dbExemplo id "a" ⟨"BTC", "USD", 100, "ka"⟩
      TAXA_CONVERSAO_PADRAO (.ok 2)).db "a" "USD" = some 246 := by
  have hok : (realizar_conversao dbExemplo id "a" ⟨"BTC", "USD", 100, "ka"⟩
      TAXA_CONVERSAO_PADRAO (.ok 2)).res
      = .ok ⟨"a", "BTC", "USD", 100, 2, 4, 196, 100, 0, 50, 246⟩ := by
    simp +decide [realizar_conversao, dbExemplo, enderecoVazio, buscar_por_endereco,
      validar_chave_privada, buscar_saldo_moeda, atualizar_saldo, registrar_conversao,
      TAXA_CONVERSAO_PADRAO, List.find?]
    norm_num
  have h := C4_conversao_taxa_no_destino dbExemplo id "a" ⟨"BTC", "USD", 100, "ka"⟩
    TAXA_CONVERSAO_PADRAO (.ok 2) ⟨"a", "BTC", "USD", 100, 2, 4, 196, 100, 0, 50, 246⟩
    2 100 50 hok rfl rfl rfl
  refine ⟨hok, ?_, ?_⟩
  · rw [h.2.2.1]; norm_num
  · rw [h.2.2.2]; norm_num [TAXA_CONVERSAO_PADRAO]

theorem C2_witness :
    ((realizar_saque dbExemplo id "a" ⟨"BTC", 200, "ka"⟩ TAXA_SAQUE_PADRAO).res
      = .error .saldoInsuficiente) ∧
    buscar_saldo_moeda (realizar_saque dbExemplo id "a" ⟨"BTC", 10, "ka"⟩
      TAXA_SAQUE_PADRAO).db "a" "BTC" = some (100 - (10 + 10 * TAXA_SAQUE_PADRAO)) := by
  have h1 := (C2_saque_taxa_e_saldo dbExemplo id "a" ⟨"BTC", 200, "ka"⟩ TAXA_SAQUE_PADRAO
    ⟨"a", 0, "ATIVA", "ka"⟩ 100 (by decide) (by decide) rfl rfl (by decide) rfl).1
  have h2 := (C2_saque_taxa_e_saldo dbExemplo id "a" ⟨"BTC", 10, "ka"⟩ TAXA_SAQUE_PADRAO
    ⟨"a", 0, "ATIVA", "ka"⟩ 100 (by decide) (by decide) rfl rfl (by decide) rfl).2.2
    (by norm_num [TAXA_SAQUE_PADRAO])
  obtain ⟨op, _, _, _, hbal⟩ := h2
  exact ⟨h1.mpr (by norm_num [TAXA_SAQUE_PADRAO]), hbal⟩


theorem deposito_nao_negativo (db : DBState) (e : String) (req : DepositoRequest)
    (hv : 0 < req.valor) (h : SaldosNaoNegativos db) :
    SaldosNaoNegativos (realizar_deposito db e req).db := by
  rw [deposito_eq_spec]
  unfold depositoSpec
  rcases hpf : primeiraFalha (checksDeposito db e req) with _ | err
  · try simp only [hpf]
    have hall := (primeiraFalha_eq_none _).mp hpf
    have hbn : (buscar_saldo_moeda db e req.codigo_moeda).isNone = false := by
      simpa using hall ((buscar_saldo_moeda db e req.codigo_moeda).isNone,
        Erro.moedaNaoEncontrada req.codigo_moeda) (by simp [checksDeposito])
    rcases hso : buscar_saldo_moeda db e req.codigo_moeda with _ | s
    · rw [hso] at hbn; simp at hbn
    have h0 : (0:ℚ) ≤ s := buscar_nonneg db e req.codigo_moeda s h hso
    simp only [hso, Option.getD_some]
    exact nonneg_atualizar db e req.codigo_moeda (s + req.valor) h (by linarith)
  · exact h

theorem saque_nao_negativo (db : DBState) (hash : String → String) (e : String)
    (req : SaqueRequest) (t : ℚ) (h : SaldosNaoNegativos db) :
    SaldosNaoNegativos (realizar_saque db hash e req t).db := by
  rw [saque_eq_spec]
  unfold saqueSpec
  rcases hpf : primeiraFalha (checksSaque db hash e req t) with _ | err
  · try simp only [hpf]
    have hall := (primeiraFalha_eq_none _).mp hpf
    have hbn : (buscar_saldo_moeda db e req.codigo_moeda).isNone = false := by
      simpa using hall ((buscar_saldo_moeda db e req.codigo_moeda).isNone,
        Erro.moedaNaoEncontrada req.codigo_moeda) (by simp [checksSaque])
    have hb : saldoAbaixoDe db e req.codigo_moeda (req.valor + req.valor * t) = false := by
      simpa using hall
        (saldoAbaixoDe db e req.codigo_moeda (req.valor + req.valor * t),
          Erro.saldoInsuficiente) (by simp [checksSaque])
    rcases hso : buscar_saldo_moeda db e req.codigo_moeda with _ | s
    · rw [hso] at hbn; simp at hbn
    have hge : ¬(s < req.valor + req.valor * t) := by
      unfold saldoAbaixoDe at hb
      rw [hso] at hb
      simpa using hb
    simp only [hso, Option.getD_some]
    exact nonneg_atualizar db e req.codigo_moeda _ h (by push_neg at hge; linarith)
  · exact h

theorem conversao_nao_negativa (db : DBState) (hash : String → String) (e : String)
    (req : ConversaoRequest) (t : ℚ) (cot : Except Unit ℚ)
    (hv : 0 < req.valor) (ht1 : t ≤ 1) (hq : ∀ c, cot = .ok c → 0 ≤ c)
    (h : SaldosNaoNegativos db) :
    SaldosNaoNegativos (realizar_conversao db hash e req t cot).db := by
  rw [conversao_eq_spec]
  unfold conversaoSpec
  rcases hpf : primeiraFalha (checksConversao db hash e req) with _ | err
  · rcases cot with _ | c
    · exact h
    · try simp only [hpf]
      have hall := (primeiraFalha_eq_none _).mp hpf
      have hbO : (buscar_saldo_moeda db e req.moeda_origem).isNone = false := by
        simpa using hall ((buscar_saldo_moeda db e req.moeda_origem).isNone,
          Erro.moedaNaoEncontrada req.moeda_origem) (by simp [checksConversao])
      have hbD : (buscar_saldo_moeda db e req.moeda_destino).isNone = false := by
        simpa using hall ((buscar_saldo_moeda db e req.moeda_destino).isNone,
          Erro.moedaNaoEncontrada req.moeda_destino) (by simp [checksConversao])
      have hb : saldoAbaixoDe db e req.moeda_origem req.valor = false := by
        simpa using hall (saldoAbaixoDe db e req.moeda_origem req.valor,
          Erro.saldoInsuficiente) (by simp [checksConversao])
      rcases hso : buscar_saldo_moeda db e req.moeda_origem with _ | sO
      · rw [hso] at hbO; simp at hbO
      rcases hsd : buscar_saldo_moeda db e req.moeda_destino with _ | sD
      · rw [hsd] at hbD; simp at hbD
      have hge : ¬(sO < req.valor) := by
        unfold saldoAbaixoDe at hb
        rw [hso] at hb
        simpa using hb
      have hsD0 : (0:ℚ) ≤ sD := buscar_nonneg db e req.moeda_destino sD h hsd
      have hc0 : (0:ℚ) ≤ c := hq c rfl
      have hfee : (0:ℚ) ≤ req.valor * c - req.valor * c * t := by
        nlinarith [mul_nonneg (mul_nonneg hv.le hc0) (sub_nonneg.mpr ht1)]
      simp only [hso, hsd, Option.getD_some]
      exact nonneg_atualizar _ _ _ _
        (nonneg_atualizar _ _ _ _ h (by push_neg at hge; linarith)) (by linarith)
  · exact h

theorem transferencia_nao_negativa (db : DBState) (hash : String → String)
    (o : String) (req : TransferenciaRequest) (t : ℚ) (hv : 0 < req.valor)
    (h : SaldosNaoNegativos db) :
    SaldosNaoNegativos (realizar_transferencia db hash o req t).db := by
  rw [transferencia_eq_spec]
  unfold transferenciaSpec
  rcases hpf : primeiraFalha (checksTransferencia db hash o req t) with _ | err
  · try simp only [hpf]
    have hall := (primeiraFalha_eq_none _).mp hpf
    have hbO : (buscar_saldo_moeda db o req.codigo_moeda).isNone = false := by
      simpa using hall ((buscar_saldo_moeda db o req.codigo_moeda).isNone,
        Erro.moedaNaoEncontrada req.codigo_moeda) (by simp [checksTransferencia])
    have hbD : (buscar_saldo_moeda db req.endereco_destino req.codigo_moeda).isNone
        = false := by
      simpa using hall
        ((buscar_saldo_moeda db req.endereco_destino req.codigo_moeda).isNone,
          Erro.moedaDestinoNaoEncontrada req.codigo_moeda) (by simp [checksTransferencia])
    have hb : saldoAbaixoDe db o req.codigo_moeda (req.valor + req.valor * t)
        = false := by
      simpa using hall
        (saldoAbaixoDe db o req.codigo_moeda (req.valor + req.valor * t),
          Erro.saldoInsuficiente) (by simp [checksTransferencia])
    rcases hso : buscar_saldo_moeda db o req.codigo_moeda with _ | sO
    · rw [hso] at hbO; simp at hbO
    rcases hsd : buscar_saldo_moeda db req.endereco_destino req.codigo_moeda with _ | sD
    · rw [hsd] at hbD; simp at hbD
    have hge : ¬(sO < req.valor + req.valor * t) := by
      unfold saldoAbaixoDe at hb
      rw [hso] at hb
      simpa using hb
    have hsD0 : (0:ℚ) ≤ sD :=
      buscar_nonneg db req.endereco_destino req.codigo_moeda sD h hsd
    simp only [hso, hsd, Option.getD_some]
    exact nonneg_atualizar _ _ _ _
      (nonneg_atualizar _ _ _ _ h (by push_neg at hge; linarith)) (by linarith)
  · exact h

theorem operacao_rejeitada_sem_mutacao (hash : String → String) (db : DBState)
    (op : Operacao) (h : (op.resultado hash db).2 = true) :
    (op.resultado hash db).1 = db := by
  rcases op with ⟨e, req⟩ | ⟨e, req, t⟩ | ⟨e, req, t, cot⟩ | ⟨o, req, t⟩ <;>
    simp only [Operacao.resultado] at h ⊢
  · rw [deposito_eq_spec] at h ⊢
    unfold depositoSpec at h ⊢
    rcases hpf : primeiraFalha (checksDeposito db e req) with _ | err
    · (try simp only [hpf] at h ⊢) <;> simp [isErro] at h
    · simp only [hpf] at h ⊢
  · rw [saque_eq_spec] at h ⊢
    unfold saqueSpec at h ⊢
    rcases hpf : primeiraFalha (checksSaque db hash e req t) with _ | err
    · (try simp only [hpf] at h ⊢) <;> simp [isErro] at h
    · simp only [hpf] at h ⊢
  · rw [conversao_eq_spec] at h ⊢
    unfold conversaoSpec at h ⊢
    rcases hpf : primeiraFalha (checksConversao db hash e req) with _ | err
    · rcases cot with _ | c
      · rfl
      · (try simp only [hpf] at h ⊢) <;> simp [isErro] at h
    · simp only [hpf] at h ⊢
  · rw [transferencia_eq_spec] at h ⊢
    unfold transferenciaSpec at h ⊢
    rcases hpf : primeiraFalha (checksTransferencia db hash o req t) with _ | err
    · (try simp only [hpf] at h ⊢) <;> simp [isErro] at h
    · simp only [hpf] at h ⊢

/-- Claim C5: starting from non-negative balances, no sequence of valid deposit,
withdrawal, conversion or transfer calls drives any balance below zero (valid:
positive amount, fee rate in [0, 1], non-negative quote — the configured defaults
satisfy this); and an operation that reports an error performs no balance
mutation, so the store before a rejected call equals the store after it. -/
theorem C5_nao_negatividade (hash : String → String) :
    (∀ (db : DBState) (ops : List Operacao), SaldosNaoNegativos db →
      (∀ op ∈ ops, op.valida) →
      SaldosNaoNegativos (ops.foldl (fun d op => op.run hash d) db)) ∧
    (∀ (db : DBState) (op : Operacao), (op.resultado hash db).2 = true →
      (op.resultado hash db).1 = db) := by
  constructor
  · intro db ops
    induction ops generalizing db with
    | nil => exact fun h _ => h
    | cons op resto ih =>
      intro h hops
      simp only [List.foldl_cons]
      refine ih _ ?_ (fun op2 h2 => hops op2 (List.mem_cons_of_mem _ h2))
      have hop := hops op (List.mem_cons_self _ _)
      rcases op with ⟨e, req⟩ | ⟨e, req, t⟩ | ⟨e, req, t, cot⟩ | ⟨o, req, t⟩
      · exact deposito_nao_negativo db e req hop h
      · exact saque_nao_negativo db hash e req t h
      · exact conversao_nao_negativa db hash e req t cot hop.1 hop.2.2.1 hop.2.2.2 h
      · exact transferencia_nao_negativa db hash o req t hop.1 h
  · exact operacao_rejeitada_sem_mutacao hash

theorem C5_witness :
    SaldosNaoNegativos ([Operacao.deposito "a" ⟨"BTC", 10⟩,
        Operacao.transferencia "a" ⟨"b", "BTC", 20, "ka"⟩ TAXA_TRANSFERENCIA_PADRAO].foldl
      (fun d op => op.run id d) dbExemplo) ∧
    ((Operacao.saque "a" ⟨"BTC", 1000, "ka"⟩ TAXA_SAQUE_PADRAO).resultado id dbExemplo).1
      = dbExemplo := by
  constructor
  · refine (C5_nao_negatividade id).1 dbExemplo _ ?_ ?_
    · intro r hr
      simp only [dbExemplo, List.mem_cons, List.not_mem_nil, or_false] at hr
      rcases hr with rfl | rfl | rfl | rfl <;> norm_num
    intro op hop
    simp only [List.mem_cons, List.not_mem_nil, or_false] at hop
    rcases hop with rfl | rfl
    · norm_num [Operacao.valida]
    · norm_num [Operacao.valida, TAXA_TRANSFERENCIA_PADRAO]
  · refine (C5_nao_negatividade id).2 dbExemplo _ ?_
    simp +decide [Operacao.resultado, realizar_saque, dbExemplo, enderecoVazio,
      buscar_por_endereco, validar_chave_privada, buscar_saldo_moeda, isErro,
      TAXA_SAQUE_PADRAO, List.find?]
    norm_num

end WalletDb

